import Mathlib

/-!
Verification of the per-frame processing pipeline of `HRI_communication.py`
and of `quaternion_to_euler` in `udp_receiver.py`, as a shallow embedding.

Machine floats are modelled as rationals (`ℚ`); where numpy's non-finite
values matter, the type `NpFloat` records finite / +inf / -inf / NaN.
Raw UDP reads are either the timeout sentinel `'t'` (checked by
`_timeout(data)`, which tests `data is 't'`) or a payload.
-/

namespace HRIComm

/-- A raw UDP read: the timeout sentinel `'t'` or a modality-specific payload
(`_timeout(data)` in the source tests `data is 't'`). -/
inductive WireData (β : Type) where
  | timeout
  | payload (b : β)
deriving DecidableEq

/-- Models one 4-byte group of a received buffer together with its two
`struct` interpretations: `asInt` is the value `struct.unpack` yields for
format character `i` (a 32-bit signed integer), `asFloat` the value for
format character `f` (modelled as a rational). -/
structure Word4 where
  asInt : ℤ
  asFloat : ℚ
deriving DecidableEq

/-- A skeleton byte buffer of length `4 * words.length + trail` bytes:
the 4-byte groups plus the leftover bytes that do not fill a group. -/
structure MotiveBuf where
  words : List Word4
  trail : Fin 4
deriving DecidableEq

/-- One decoded rigid body: `{rigidBodyId (lower 8 bits), pos f32x3, quat f32x4}`. -/
structure Bone where
  id : ℤ
  pos : ℚ × ℚ × ℚ
  quat : ℚ × ℚ × ℚ × ℚ
deriving DecidableEq

/-- Lower 8 bits of the decoded `int32`, as computed by
`int(bin(bone[0])[-8:], 2)` in `_process_motive_skeleton`; for the
nonnegative rigid-body identifiers of the protocol this equals `n % 256`. -/
def lower8 (n : ℤ) : ℤ :=
  n % 256

/-- `settings['n_data_per_rigid_body']`: one `int32` plus seven `f32`
per rigid body (the dummy generator packs `"ifffffff"`, 32 bytes). -/
def nDataPerRigidBody : ℕ := 8

/-- The bone loop of `_process_motive_skeleton`: groups of 8 unpacked values
(`for i in range(0, len(data_ump) // 8)`); position `8*i` is read through the
`i` format, the other seven through `f`; `Q_ORDER = [0, 1, 2, 3]` is the
identity, so the quaternion components are kept in wire order. Leftover
values that do not fill a full group are dropped by the range loop. -/
def decodeBones : List Word4 → List Bone
  | w0 :: w1 :: w2 :: w3 :: w4 :: w5 :: w6 :: w7 :: rest =>
      { id := lower8 w0.asInt
        pos := (w1.asFloat, w2.asFloat, w3.asFloat)
        quat := (w4.asFloat, w5.asFloat, w6.asFloat, w7.asFloat) } :: decodeBones rest
  | _ => []

/-- Insertion step for the ascending sort by rigid-body id. -/
def insertByID (b : Bone) : List Bone → List Bone
  | [] => [b]
  | c :: cs => if b.id ≤ c.id then b :: c :: cs else c :: insertByID b cs

/-- Models `data = data[data[:, 0].argsort()]`: the decoded rows reordered so
that the id column is ascending. -/
def sortByID : List Bone → List Bone
  | [] => []
  | b :: bs => insertByID b (sortByID bs)

/-- Result of `_process_motive_skeleton`. -/
inductive SkelResult where
  | timeout
  | decoded (bones : List Bone)
  | structError
  | nameError
deriving DecidableEq

/-- Shallow embedding of `_process_motive_skeleton`:
returns the sentinel unchanged on timeout; builds the format string with
`len(data) // 4` characters, so `struct.unpack` raises (`structError`) exactly
when `len(data)` is not a multiple of 4 (`calcsize = 4 * (len // 4) ≠ len`);
when the bone loop runs zero times the local `ID` is never bound and
`ID = np.array(ID)` raises a `NameError`; otherwise decodes the bones and
sorts them by id ascending. -/
def processMotiveSkeleton : WireData MotiveBuf → SkelResult
  | .timeout => .timeout
  | .payload buf =>
      if buf.trail.val ≠ 0 then .structError
      else if buf.words.length < nDataPerRigidBody then .nameError
      else .decoded (sortByID (decodeBones buf.words))

/-- One fixed-width IMU record as unpacked by `_process_imus` from
`settings['types_in_imus']` (`"qqccccccccdddddddddd"`): a timestamp, an
8-character ASCII device identifier (here carried already lowercased, as the
source lowercases the concatenation before the table lookup), 3 Euler angles
(unpacked values 13..15) and 4 quaternion components (values 16..19). -/
structure ImuRec where
  ts : ℤ
  dev : String
  euler : ℚ × ℚ × ℚ
  quat : ℚ × ℚ × ℚ × ℚ
deriving DecidableEq

/-- An IMU-array byte buffer: `how_many = len(data) // n_bytes_per_imu`
records plus the leftover bytes. -/
structure ImusBuf where
  recs : List ImuRec
  trail : ℕ
deriving DecidableEq

/-- One entry of the flattened output of `_process_imus`:
`[ID] + list(Euler) + list(Quat)`. -/
structure ImuJoint where
  id : ℕ
  euler : ℚ × ℚ × ℚ
  quat : ℚ × ℚ × ℚ × ℚ
deriving DecidableEq

/-- Python list indexing `l[i]`: negative indices count from the end;
out-of-range access raises `IndexError` (here `none`). -/
def pyGet {α : Type} (l : List α) (i : ℤ) : Option α :=
  if 0 ≤ i then l.get? i.toNat
  else if (-i).toNat ≤ l.length then l.get? (l.length - (-i).toNat)
  else none

/-- Result of `_process_imus`. -/
inductive ImusResult where
  | timeout
  | decoded (out : List ImuJoint)
  | structError
  | keyError
  | indexError
deriving DecidableEq

/-- The reordering loop of `_process_imus`:
`ids = [x['ID'] for x in imus]`, then `for id in ids:` append `imus[id - 1]`;
`imus[id - 1]` raises `IndexError` when out of range (and wraps for `id = 0`). -/
def reorderImus (imus : List ImuJoint) : Option (List ImuJoint) :=
  (imus.map ImuJoint.id).mapM (fun id => pyGet imus ((id : ℤ) - 1))

/-- Shallow embedding of `_process_imus`, parameterised by the configured
case-insensitive device table `settings['imu_ID']` (`none` models a missing
key, which raises `KeyError`): returns the sentinel unchanged on timeout;
`struct.unpack` raises when the buffer length is not a whole number of
records; each record's ID is looked up in the table; the output appends, for
each decoded ID in decode order, the record at Python index `ID - 1`. -/
def processImus (imuID : String → Option ℕ) : WireData ImusBuf → ImusResult
  | .timeout => .timeout
  | .payload buf =>
      if buf.trail ≠ 0 then .structError
      else
        match buf.recs.mapM (fun r => (imuID r.dev).map
            (fun i => ImuJoint.mk i r.euler r.quat)) with
        | none => .keyError
        | some imus =>
            match reorderImus imus with
            | none => .indexError
            | some out => .decoded out

/-- A unity calibration byte buffer: `len(data) // 4` floats plus leftover
bytes. -/
structure UnityCalibBuf where
  floats : List ℚ
  trail : Fin 4
deriving DecidableEq

/-- Result of `_process_unity_calib`. -/
inductive CalibResult where
  | timeout
  | decoded (vals : List ℚ)
  | structError
deriving DecidableEq

/-- Shallow embedding of `_process_unity_calib`: sentinel unchanged on
timeout; unpacks `len(data) // 4` floats, raising when `len(data)` is not a
multiple of 4. -/
def processUnityCalib : WireData UnityCalibBuf → CalibResult
  | .timeout => .timeout
  | .payload buf =>
      if buf.trail.val ≠ 0 then .structError
      else .decoded buf.floats

/-- Result of `_process_unity_flag`. -/
inductive FlagResult where
  | timeout
  | flag (s : String)
deriving DecidableEq

/-- Shallow embedding of `_process_unity_flag`: sentinel unchanged on
timeout; otherwise the received byte is decoded as UTF-8 text. -/
def processUnityFlag : WireData String → FlagResult
  | .timeout => .timeout
  | .payload s => .flag s

/-- The fixed command-frame length `N_FLOATS_UDP = 10`. -/
def N_FLOATS_UDP : ℕ := 10

/-- Models a numpy element assignment `a[i] = v`: out-of-range indices raise
`IndexError` (here `none`). -/
def npSet (l : List ℚ) (i : ℕ) (v : ℚ) : Option (List ℚ) :=
  if i < l.length then some (l.set i v) else none

/-- The assignment loop of `_control_routine`:
`for i, out in enumerate(settings['regression_outputs']): controls[i] = y_score_scaled[out]`. -/
def assignOutputs {α : Type} (y : α → ℚ) : List ℚ → ℕ → List α → Option (List ℚ)
  | ctrl, _, [] => some ctrl
  | ctrl, i, out :: rest => (npSet ctrl i (y out)).bind (fun c => assignOutputs y c (i + 1) rest)

/-- The command-vector assembly of `_control_routine`:
`controls = np.zeros(N_FLOATS_UDP)`, then one slot per configured regression
output; the result is handed to `_write_commands_to_unity`. The per-mode
computation of `y_score_scaled` (simple / maxmin / new) only determines the
map `y`, not the assembly. -/
def buildControls {α : Type} (regressionOutputs : List α) (y : α → ℚ) : Option (List ℚ) :=
  assignOutputs y (List.replicate N_FLOATS_UDP 0) 0 regressionOutputs

/-- One clamp step of `_new`: the source compares against the channel max
first (`if x > max: x = max elif x < min: x = min`). -/
def clampEntry (mn mx x : ℚ) : ℚ :=
  if x > mx then mx else if x < mn then mn else x

/-- The clamp loop of `_new` over the reduced feature row
`skel_tofit_red[0]`, with the per-channel calibration bounds
`min_values` / `max_values`; a bounds list shorter than the feature row
raises `IndexError` (here `none`). -/
def clampFeatures : List ℚ → List ℚ → List ℚ → Option (List ℚ)
  | [], _, _ => some []
  | x :: xs, mn :: mns, mx :: mxs =>
      (clampFeatures xs mns mxs).map (fun c => clampEntry mn mx x :: c)
  | _ :: _, _, _ => none

/-- Shallow embedding of the tail of `_new`, after the shared
dimensionality reduction (`transform_cca`, an external artifact) produced the
reduced feature row: clamp each reduced feature to its calibration bounds,
apply the shared fitted regressor `predict`, then rescale by
`y_score.flatten() / 90.0`. -/
def newMapper (predict : List ℚ → ℚ) (mins maxs xs : List ℚ) : Option ℚ :=
  (clampFeatures xs mins maxs).map (fun c => predict c / 90)

/-- The store step of `_acquire_unity_data`: when the decoded calibration
frame matches the header size it is stored at index `count`; otherwise the
previous entry `unity_num[count - 1]` is stored again and a warning
(`'header not matching data size'`) is logged — the returned boolean records
whether the warning was emitted. -/
def storeUnityCalib (headerSize : ℕ) (unityNum : ℕ → Option (List ℚ)) (count : ℕ)
    (unityCalib : List ℚ) : (ℕ → Option (List ℚ)) × Bool :=
  if unityCalib.length = headerSize then
    (Function.update unityNum count (some unityCalib), false)
  else
    (Function.update unityNum count (unityNum (count - 1)), true)

/-- The fixed idle threshold of `_run_acquisition`: `idle = 1` second. -/
def idleThreshold : ℚ := 1

/-- Loop state of `_run_acquisition`: the frame counter and the clock value
at the last accepted frame. -/
structure AcqState where
  count : ℕ
  last : ℚ
deriving DecidableEq

/-- One iteration of the `_run_acquisition` loop: the received flag is
overridden to `'q'` when the counter reaches `n_readings`, and again to
`'q'` when at least one frame was accepted and the elapsed time since the
last accepted frame exceeds the idle threshold; flag `'a'` accepts a frame
(counter advances, idle clock resets), flag `'q'` flushes (postprocess,
store to file, close sockets) and stops — the boolean of the result. Any
other flag (including the timeout sentinel `'t'`) leaves the state
unchanged and continues. -/
def acqStep (nReadings : ℕ) (unityFlag : String) (now : ℚ) (s : AcqState) : AcqState × Bool :=
  let elapsed := now - s.last
  let flag1 := if nReadings ≤ s.count then "q" else unityFlag
  let flag2 := if 0 < s.count ∧ idleThreshold < elapsed then "q" else flag1
  if flag2 = "a" then ({ count := s.count + 1, last := now }, false)
  else if flag2 = "q" then (s, true)
  else (s, false)

/-- One iteration of the `_run_control` loop (the counter starts at 200 in
the source): flag `'c'` accepts and processes a frame and advances the
counter; the session flushes (store control history, close sockets) and
stops when the flag is `'q'` or the counter reaches `n_readings`.
`elapsedIdle` is the wall time since the last accepted frame, available
from the environment; the control loop never reads the clock, so the
parameter is unused by the body. -/
def ctrlStep (nReadings : ℕ) (unityFlag : String) (_elapsedIdle : ℚ) (count : ℕ) : ℕ × Bool :=
  let count' := if unityFlag = "c" then count + 1 else count
  let stop1 : Bool := if unityFlag = "q" ∨ nReadings ≤ count' then true else false
  let stop2 : Bool := if count' = nReadings then true else stop1
  (count', stop2)

/-- A numpy float64 value: finite (modelled as a rational) or one of the
non-finite values. -/
inductive NpFloat where
  | finite (q : ℚ)
  | posInf
  | negInf
  | nan
deriving DecidableEq

/-- Whether a numpy value is finite. -/
def NpFloat.isFinite : NpFloat → Bool
  | .finite _ => true
  | _ => false

/-- numpy float64 division on rational operands: division by zero yields
`±inf` (or `nan` for `0 / 0`) together with a `RuntimeWarning` — it raises
no error. -/
def npDiv (x y : ℚ) : NpFloat :=
  if y = 0 then
    if x = 0 then .nan else if 0 < x then .posInf else .negInf
  else .finite (x / y)

/-- One channel of the z-score computed by `_skeleton_preprocessing_II`:
`(skel_subselect - norm_av) / norm_std`, elementwise. -/
def normalizeEntry (x mean std : ℚ) : NpFloat :=
  npDiv (x - mean) std

/-- The elementwise normalization of `_skeleton_preprocessing_II` over the
configured channels; mismatched shapes raise a numpy broadcast error
(here `none`). -/
def skelNormalize : List ℚ → List ℚ → List ℚ → Option (List NpFloat)
  | [], [], [] => some []
  | x :: xs, m :: ms, s :: ss => (skelNormalize xs ms ss).map (fun t => normalizeEntry x m s :: t)
  | _, _, _ => none

/-- The three modes accepted by `run(mode)`. -/
inductive RunMode where
  | avatar
  | acquisition
  | control
deriving DecidableEq

/-- The externally visible side effects of `run`, in program order. -/
inductive RunAction where
  | setupSockets
  | startRemote
  | runAvatar
  | storeAcquisitionData
  | storeControlData
  | stopRemote
  | closeSockets
deriving DecidableEq

/-- Shallow embedding of `run(mode)`: the exit status together with the
ordered side-effect trace. `dataExists` models
`HRI.hri_state(settings) != 'NO DATA'` and `remote` models
`settings['input_device'] == 'remote'`. The inner session loops are
abstracted to their flush-time effects: `_run_acquisition` persists the
acquired data and closes the sockets, `_run_control` persists the control
history and closes the sockets; `run` closes the sockets again at its end.
On an acquisition collision the function logs an error, closes the sockets
and returns 1 before any session loop runs. -/
def run (mode : RunMode) (remote : Bool) (dataExists : Bool) : ℤ × List RunAction :=
  let pre := [RunAction.setupSockets] ++ (if remote then [RunAction.startRemote] else [])
  match mode with
  | .avatar =>
      (0, pre ++ [RunAction.runAvatar]
        ++ (if remote then [RunAction.stopRemote] else []) ++ [RunAction.closeSockets])
  | .acquisition =>
      if dataExists then (1, pre ++ [RunAction.closeSockets])
      else
        (0, pre ++ [RunAction.storeAcquisitionData, RunAction.closeSockets]
          ++ (if remote then [RunAction.stopRemote] else []) ++ [RunAction.closeSockets])
  | .control =>
      (0, pre ++ [RunAction.storeControlData, RunAction.closeSockets]
        ++ (if remote then [RunAction.stopRemote] else []) ++ [RunAction.closeSockets])

/-- Modelled from the spec: `HRI_mapping._unbias_dict` is imported from a
module that is not part of the repository snapshot; per the spec, debiasing
subtracts the corresponding angle of the ReferencePose from the current
pose, per body part. -/
def unbiasDict (part : ℕ) (pose firstSkel : ℕ → ℚ) : ℕ → ℚ :=
  Function.update pose part (pose part - firstSkel part)

/-- The debias loop of `_skeleton_preprocessing`:
`for i in settings['used_body_parts']: input_data = _unbias_dict(i, input_data, first_skel)`. -/
def debiasAll (parts : List ℕ) (pose firstSkel : ℕ → ℚ) : ℕ → ℚ :=
  parts.foldl (fun p i => unbiasDict i p firstSkel) pose

/-- Shallow embedding of the debias stage of `_skeleton_preprocessing`,
between the (external) relativize step and the (external) Euler-angle step:
`relAngles` is the relativized pose of the current frame and `firstSkel` the
module-global reference pose, captured lazily
(`if first_skel is None: first_skel = input_data.copy()`) and only ever
written on that first frame. The result is the debiased snapshot `skel_unb`
together with the new value of `first_skel`. -/
def skeletonPreprocessing (parts : List ℕ) (relAngles : ℕ → ℚ)
    (firstSkel : Option (ℕ → ℚ)) : (ℕ → ℚ) × Option (ℕ → ℚ) :=
  let first := firstSkel.getD relAngles
  (debiasAll parts relAngles first, some first)

/-- The arcsin argument computed by `quaternion_to_euler` in
`udp_receiver.py`: `t2 = +2.0 * (w * y - z * x)`. -/
def t2val (x y z w : ℚ) : ℚ :=
  2 * (w * y - z * x)

/-- The clamp of `quaternion_to_euler`:
`t2 = +1.0 if t2 > +1.0 else t2` then `t2 = -1.0 if t2 < -1.0 else t2`. -/
def clampT2 (t : ℚ) : ℚ :=
  if t > 1 then 1 else if t < -1 then -1 else t

/-- A concrete configured device table mapping three device names to the
indices 3, 1 and 2. -/
def imuTableCex : String → Option ℕ :=
  fun s =>
    if s = "imudev_a" then some 3
    else if s = "imudev_b" then some 1
    else if s = "imudev_c" then some 2
    else none

/-- An IMU-array buffer of three well-formed records whose device names
decode, in buffer order, to the IDs 3, 1, 2 (network arrival order is not
tied to ID order). -/
def imusBufCex : ImusBuf :=
  ⟨[⟨0, "imudev_a", (1, 1, 1), (0, 0, 0, 1)⟩,
    ⟨0, "imudev_b", (2, 2, 2), (0, 0, 0, 1)⟩,
    ⟨0, "imudev_c", (3, 3, 3), (0, 0, 0, 1)⟩], 0⟩

/-- The value `_process_imus` produces on `imusBufCex`. -/
def imusOutCex : List ImuJoint :=
  [⟨2, (3, 3, 3), (0, 0, 0, 1)⟩,
   ⟨3, (1, 1, 1), (0, 0, 0, 1)⟩,
   ⟨1, (2, 2, 2), (0, 0, 0, 1)⟩]

/-- A skeleton buffer of 669 bytes: 3 bytes short of the expected
`21 * 32 = 672` bytes of a 21-rigid-body skeleton (669 = 4·167 + 1). -/
def skelBufShort3 : MotiveBuf :=
  ⟨List.replicate 167 ⟨0, 0⟩, 1⟩

end HRIComm

namespace HRIComm

/-- C1: for every modality, the decode/process stage returns the timeout
sentinel unchanged: `_process_motive_skeleton`, `_process_imus`,
`_process_unity_calib` and `_process_unity_flag` applied to the sentinel
input all yield the sentinel itself, performing no transform. -/
theorem C1_sentinel_passthrough (imuID : String → Option ℕ) :
    processMotiveSkeleton .timeout = .timeout ∧
    processImus imuID .timeout = .timeout ∧
    processUnityCalib .timeout = .timeout ∧
    processUnityFlag .timeout = .timeout :=
  ⟨rfl, rfl, rfl, rfl⟩

/-- The assignment loop succeeds when the configured outputs fit in the
vector, preserves the vector length, and leaves every slot at or beyond the
last written index unchanged. -/
theorem assignOutputs_spec {α : Type} (y : α → ℚ) (rest : List α) :
    ∀ (ctrl : List ℚ) (i : ℕ), i + rest.length ≤ ctrl.length →
      ∃ l, assignOutputs y ctrl i rest = some l ∧ l.length = ctrl.length ∧
        ∀ j, i + rest.length ≤ j → l[j]? = ctrl[j]? := by
  induction rest with
  | nil =>
      intro ctrl i _
      exact ⟨ctrl, rfl, rfl, fun _ _ => rfl⟩
  | cons out rest ih =>
      intro ctrl i h
      have hi : i < ctrl.length := by
        simp only [List.length_cons] at h
        omega
      have hset : npSet ctrl i (y out) = some (ctrl.set i (y out)) := by
        simp [npSet, hi]
      have hlen : (ctrl.set i (y out)).length = ctrl.length := List.length_set ctrl i (y out)
      obtain ⟨l, hl, hlenl, hget⟩ := ih (ctrl.set i (y out)) (i + 1)
        (by rw [hlen]; simp only [List.length_cons] at h; omega)
      refine ⟨l, ?_, by rw [hlenl, hlen], ?_⟩
      · simp [assignOutputs, hset, hl]
      · intro j hj
        simp only [List.length_cons] at hj
        have hji : i ≠ j := by omega
        rw [hget j (by omega), List.getElem?_set_ne hji]

/-- C2: for every control mode and every processed frame (the mode only
determines the per-channel map `y`), the command vector handed to
`_write_commands_to_unity` has length exactly `N_FLOATS_UDP = 10`, and every
slot at an index not assigned to a configured regression-output channel is
exactly `0`. -/
theorem C2_command_vector_invariant {α : Type} (regressionOutputs : List α) (y : α → ℚ)
    (h : regressionOutputs.length ≤ 10) :
    ∃ l, buildControls regressionOutputs y = some l ∧ l.length = 10 ∧
      ∀ j, regressionOutputs.length ≤ j → j < 10 → l[j]? = some 0 := by
  obtain ⟨l, hl, hlen, hget⟩ := assignOutputs_spec y regressionOutputs
    (List.replicate N_FLOATS_UDP 0) 0 (by simpa [N_FLOATS_UDP] using h)
  refine ⟨l, hl, by simpa [N_FLOATS_UDP] using hlen, fun j hj hj10 => ?_⟩
  rw [hget j (by omega), List.getElem?_replicate]
  simp only [N_FLOATS_UDP, hj10, if_true]

/-- Witness for C2 at a concrete input: one configured output channel,
mapped to the value 7. -/
theorem C2_command_vector_invariant_witness :
    ∃ l, buildControls [0] (fun _ : ℕ => (7 : ℚ)) = some l ∧ l.length = 10 ∧
      ∀ j, (1 : ℕ) ≤ j → j < 10 → l[j]? = some 0 :=
  C2_command_vector_invariant [0] (fun _ => (7 : ℚ)) (by decide)

/-- C4: in the nonlinear mapper `_new`, with per-channel calibration bounds
satisfying `min ≤ max`: a feature strictly below its min is replaced by the
min, a feature strictly above its max is replaced by the max, a feature
within bounds is left unchanged before regression, and the regressor's
prediction over the clamped row is rescaled by dividing by exactly 90. -/
theorem C4_clamp_law (mn mx x : ℚ) (h : mn ≤ mx) (predict : List ℚ → ℚ)
    (mins maxs xs c : List ℚ) (hc : clampFeatures xs mins maxs = some c) :
    (x < mn → clampEntry mn mx x = mn) ∧
    (mx < x → clampEntry mn mx x = mx) ∧
    (mn ≤ x → x ≤ mx → clampEntry mn mx x = x) ∧
    newMapper predict mins maxs xs = some (predict c / 90) := by
  refine ⟨fun hlt => ?_, fun hgt => ?_, fun h1 h2 => ?_, ?_⟩
  · have : ¬ (x > mx) := by linarith
    simp [clampEntry, this, hlt]
  · simp [clampEntry, hgt]
  · have h3 : ¬ (x > mx) := by linarith
    have h4 : ¬ (x < mn) := by linarith
    simp [clampEntry, h3, h4]
  · simp [newMapper, hc]

/-- Witness for C4 at a concrete input: bounds `[-1, 1]` on a single
channel, reduced feature `2` (clamped to `1`), regressor summing the row. -/
theorem C4_clamp_law_witness :
    ((2 : ℚ) < -1 → clampEntry (-1) 1 2 = -1) ∧
    ((1 : ℚ) < 2 → clampEntry (-1) 1 2 = 1) ∧
    ((-1 : ℚ) ≤ 2 → (2 : ℚ) ≤ 1 → clampEntry (-1) 1 2 = 2) ∧
    newMapper (fun l => l.foldl (· + ·) 0) [-1] [1] [2] =
      some ((fun l : List ℚ => l.foldl (· + ·) 0) [1] / 90) :=
  C4_clamp_law (-1) 1 2 (by norm_num) (fun l => l.foldl (· + ·) 0)
    [-1] [1] [2] [1] (by norm_num [clampFeatures, clampEntry])

/-- Inserting a row preserves the multiset of decoded rows. -/
theorem insertByID_perm (b : Bone) : ∀ l : List Bone, (insertByID b l).Perm (b :: l)
  | [] => List.Perm.refl _
  | c :: cs => by
      unfold insertByID
      split_ifs
      · exact List.Perm.refl _
      · exact (List.Perm.cons c (insertByID_perm b cs)).trans (List.Perm.swap b c cs)

/-- Sorting by id preserves the multiset of decoded rows. -/
theorem sortByID_perm : ∀ l : List Bone, (sortByID l).Perm l
  | [] => List.Perm.refl _
  | b :: bs => (insertByID_perm b (sortByID bs)).trans (List.Perm.cons b (sortByID_perm bs))

/-- Inserting into a row list sorted by id keeps it sorted by id. -/
theorem insertByID_sorted (b : Bone) :
    ∀ l : List Bone, List.Sorted (fun a c => a.id ≤ c.id) l →
      List.Sorted (fun a c => a.id ≤ c.id) (insertByID b l)
  | [], _ => List.sorted_singleton b
  | c :: cs, h => by
      obtain ⟨hc, hcs⟩ := List.sorted_cons.mp h
      unfold insertByID
      split_ifs with hbc
      · refine List.sorted_cons.mpr ⟨?_, h⟩
        intro d hd
        rcases List.mem_cons.mp hd with hdc | hdcs
        · exact hdc ▸ hbc
        · exact le_trans hbc (hc d hdcs)
      · refine List.sorted_cons.mpr ⟨?_, insertByID_sorted b cs hcs⟩
        intro d hd
        rcases List.mem_cons.mp ((insertByID_perm b cs).mem_iff.mp hd) with hdb | hdcs
        · exact hdb ▸ le_of_not_le hbc
        · exact hc d hdcs

/-- The row sort of `_process_motive_skeleton` yields rows ascending by id. -/
theorem sortByID_sorted : ∀ l : List Bone, List.Sorted (fun a c => a.id ≤ c.id) (sortByID l)
  | [] => List.sorted_nil
  | b :: bs => insertByID_sorted b (sortByID bs) (sortByID_sorted bs)

/-- On a well-sized skeleton buffer, `_process_motive_skeleton` decodes to
rows sorted ascending by rigid-body id carrying exactly the ids decoded
from the buffer (so pairwise-distinct buffer ids stay distinct) — the
skeleton half of the sortedness property holds. -/
theorem processMotiveSkeleton_sorted (buf : MotiveBuf) (h0 : buf.trail.val = 0)
    (h8 : nDataPerRigidBody ≤ buf.words.length) :
    processMotiveSkeleton (.payload buf) = .decoded (sortByID (decodeBones buf.words)) ∧
    List.Sorted (fun a c => a.id ≤ c.id) (sortByID (decodeBones buf.words)) ∧
    ((sortByID (decodeBones buf.words)).map Bone.id).Perm
      ((decodeBones buf.words).map Bone.id) := by
  refine ⟨?_, sortByID_sorted _, (sortByID_perm _).map Bone.id⟩
  simp [processMotiveSkeleton, h0, Nat.not_lt.mpr h8]

/-- C3: evaluation of `_process_imus` at the failing input. The reordering
loop appends `imus[id - 1]` while iterating over the decoded IDs in buffer
order, so the emitted ID sequence is the decode-order ID sequence composed
with itself — for the valid three-record buffer whose device IDs decode as
3, 1, 2 the output ID column is `[2, 3, 1]`, which is not sorted ascending,
contradicting the source's own `# sort by ID` comment and the spec. -/
theorem C3_imus_decode_not_sorted :
    processImus imuTableCex (.payload imusBufCex) = .decoded imusOutCex ∧
    imusOutCex.map ImuJoint.id = [2, 3, 1] ∧
    ¬ List.Sorted (· ≤ ·) (imusOutCex.map ImuJoint.id) := by
  refine ⟨by decide, by decide, ?_⟩
  have h : imusOutCex.map ImuJoint.id = [2, 3, 1] := by decide
  rw [h]
  intro hs
  exact absurd (List.rel_of_sorted_cons (List.sorted_cons.mp hs).2 1 (by simp)) (by decide)

/-- C5 counterexample: on a skeleton buffer 3 bytes short of the expected
672 bytes, `_process_motive_skeleton` builds a format string of
`669 // 4 = 167` characters, so `struct.unpack` raises
(`calcsize = 668 ≠ 669`) — a fatal decode error, not a warning-grade
condition. -/
theorem C5_counterexample :
    processMotiveSkeleton (.payload skelBufShort3) = .structError := by
  decide

/-- C5 amended: decoding a skeleton buffer 3 bytes short of the expected
modality size raises a struct unpack error (a fatal decode failure — no
warning is emitted and no pose state is touched on that path); the
warn-and-retain behavior instead belongs to the simulator-calibration
stream: in `_acquire_unity_data`, a calibration frame whose decoded size
does not match the header logs a warning and stores the previously accepted
sample unchanged for that tick. -/
theorem C5_amended :
    (∀ words : List Word4, processMotiveSkeleton (.payload ⟨words, 1⟩) = .structError) ∧
    (∀ (headerSize : ℕ) (unityNum : ℕ → Option (List ℚ)) (count : ℕ) (calib : List ℚ),
      calib.length ≠ headerSize →
        storeUnityCalib headerSize unityNum count calib =
          (Function.update unityNum count (unityNum (count - 1)), true)) := by
  constructor
  · intro words
    simp [processMotiveSkeleton]
  · intro headerSize unityNum count calib h
    simp [storeUnityCalib, h]

/-- Witness for C5 at concrete inputs: the 669-byte buffer, and a one-float
calibration frame against a four-column header with an empty history. -/
theorem C5_amended_witness :
    processMotiveSkeleton (.payload ⟨List.replicate 167 ⟨0, 0⟩, 1⟩) = .structError ∧
    storeUnityCalib 4 (fun _ => none) 3 [1] =
      (Function.update (fun _ => (none : Option (List ℚ))) 3
        ((fun _ : ℕ => (none : Option (List ℚ))) (3 - 1)), true) :=
  ⟨C5_amended.1 (List.replicate 167 ⟨0, 0⟩),
   C5_amended.2 4 (fun _ => none) 3 [1] (by decide)⟩

/-- C6 counterexample: a control-session tick where at least one frame has
already been accepted (the counter, started at 200, stands at 201), no
frame is accepted this tick (the flag read timed out to the sentinel
`'t'`), and the idle time (3600) far exceeds the 1-second threshold — yet
the session does not transition to FLUSHING: the control loop never reads
the clock, so the claimed idle transition does not exist for control
sessions. -/
theorem C6_counterexample :
    ctrlStep 100000 "t" 3600 201 = (201, false) := by
  decide

/-- The stop condition of the control loop, abstracted: stopping is
equivalent to the quit flag or the counter bound. -/
theorem ctrl_stop_iff (q : Prop) [Decidable q] (n c : ℕ) :
    (if c = n then true else if q ∨ n ≤ c then true else false) = true ↔ (q ∨ n ≤ c) := by
  split_ifs with h1 h2
  · simp only [true_iff]
    exact Or.inr h1.ge
  · simpa using h2
  · simpa using h2

/-- C6 amended: in acquisition sessions, once at least one frame has been
accepted, an idle period longer than the fixed 1-second threshold forces
the quit path on the next iteration exactly as if a `'q'` flag had been
received, whatever flag actually arrived; control sessions have no idle
timeout — they flush exactly when the flag is `'q'` or the (possibly just
advanced) counter has reached `n_readings`. -/
theorem C6_amended :
    (∀ (nReadings : ℕ) (unityFlag : String) (now : ℚ) (s : AcqState),
      0 < s.count → idleThreshold < now - s.last →
        acqStep nReadings unityFlag now s = (s, true)) ∧
    (∀ (nReadings : ℕ) (unityFlag : String) (elapsedIdle : ℚ) (count : ℕ),
      (ctrlStep nReadings unityFlag elapsedIdle count).2 = true ↔
        (unityFlag = "q" ∨ nReadings ≤ (if unityFlag = "c" then count + 1 else count))) := by
  constructor
  · intro nReadings unityFlag now s hc hidle
    have h : 0 < s.count ∧ idleThreshold < now - s.last := ⟨hc, hidle⟩
    simp [acqStep, h]
  · intro nReadings unityFlag elapsedIdle count
    simp only [ctrlStep]
    exact ctrl_stop_iff (unityFlag = "q") nReadings (if unityFlag = "c" then count + 1 else count)

/-- Witness for C6 at concrete inputs: an acquisition tick with one
accepted frame and 3 time units of idleness flushes even though the flag
says `'a'`; a control tick with flag `'q'` flushes. -/
theorem C6_amended_witness :
    acqStep 5 "a" 3 ⟨1, 0⟩ = (⟨1, 0⟩, true) ∧
    (ctrlStep 10 "q" 0 3).2 = true :=
  ⟨C6_amended.1 5 "a" 3 ⟨1, 0⟩ (by decide) (by norm_num [idleThreshold]),
   (C6_amended.2 10 "q" 0 3).mpr (Or.inl rfl)⟩

/-- C7 counterexample: a zero standard deviation on a configured channel is
not surfaced as an error: `_skeleton_preprocessing_II` divides elementwise
and numpy silently returns a non-finite value (here `(1 - 0)/0 = +inf`),
emitting only a `RuntimeWarning`. -/
theorem C7_counterexample :
    skelNormalize [1] [0] [0] = some [NpFloat.posInf] ∧
    NpFloat.posInf.isFinite = false := by
  refine ⟨?_, rfl⟩
  norm_num [skelNormalize, normalizeEntry, npDiv]

/-- C7 amended: the normalization of `_skeleton_preprocessing_II` computes
the elementwise z-score `(x - mean) / std` whenever `std ≠ 0`; a zero std
on a channel silently produces a non-finite entry (`±inf`, or NaN when
`x = mean`) in the normalized vector — no fatal error is raised. -/
theorem C7_amended (x mean std : ℚ) :
    (std ≠ 0 → normalizeEntry x mean std = .finite ((x - mean) / std)) ∧
    (std = 0 → (normalizeEntry x mean std).isFinite = false) := by
  constructor
  · intro h
    simp [normalizeEntry, npDiv, h]
  · intro h
    subst h
    by_cases h0 : x - mean = 0
    · simp [normalizeEntry, npDiv, h0, NpFloat.isFinite]
    · by_cases h1 : 0 < x - mean
      · simp [normalizeEntry, npDiv, h0, h1, NpFloat.isFinite]
      · simp [normalizeEntry, npDiv, h0, h1, NpFloat.isFinite]

/-- Witness for C7 at concrete inputs: channel value 5, mean 1, std 2
normalizes to 2; std 0 yields a non-finite entry. -/
theorem C7_amended_witness :
    normalizeEntry 5 1 2 = .finite ((5 - 1) / 2) ∧
    (normalizeEntry 1 0 0).isFinite = false :=
  ⟨(C7_amended 5 1 2).1 (by norm_num), (C7_amended 1 0 0).2 rfl⟩

/-- C8: starting `run` in acquisition mode when session data already exists
on disk for the same subject/device/instance returns exit status 1 after
closing the sockets, without persisting anything; any run that is not an
acquisition collision returns status 0. -/
theorem C8_acquisition_collision (remote dataExists : Bool) :
    (run .acquisition remote true).1 = 1 ∧
    RunAction.closeSockets ∈ (run .acquisition remote true).2 ∧
    RunAction.storeAcquisitionData ∉ (run .acquisition remote true).2 ∧
    RunAction.storeControlData ∉ (run .acquisition remote true).2 ∧
    (∀ mode : RunMode, ¬ (mode = .acquisition ∧ dataExists = true) →
      (run mode remote dataExists).1 = 0) := by
  refine ⟨?_, ?_, ?_, ?_, ?_⟩
  · cases remote <;> rfl
  · cases remote <;> decide
  · cases remote <;> decide
  · cases remote <;> decide
  · intro mode h
    cases mode <;> cases remote <;> cases dataExists <;> simp_all [run]

/-- Witness for C8 at a concrete input: no remote device; acquisition with
existing data returns 1, a control run with no existing data returns 0. -/
theorem C8_acquisition_collision_witness :
    (run .acquisition false true).1 = 1 ∧
    (run .control false false).1 = 0 :=
  ⟨(C8_acquisition_collision false false).1,
   (C8_acquisition_collision false false).2.2.2.2 .control (by simp)⟩

/-- Debiasing leaves untouched every part that is not in the processed
list. -/
theorem debiasAll_not_mem (parts : List ℕ) :
    ∀ (pose firstSkel : ℕ → ℚ) (p : ℕ), p ∉ parts →
      debiasAll parts pose firstSkel p = pose p := by
  induction parts with
  | nil => intro pose firstSkel p _; rfl
  | cons i rest ih =>
      intro pose firstSkel p hp
      have hpi : p ≠ i := fun h => hp (h ▸ List.mem_cons_self i rest)
      have hpr : p ∉ rest := fun h => hp (List.mem_cons_of_mem i h)
      show debiasAll rest (unbiasDict i pose firstSkel) firstSkel p = pose p
      rw [ih (unbiasDict i pose firstSkel) firstSkel p hpr]
      simp [unbiasDict, Function.update_noteq hpi]

/-- On a duplicate-free part list, debiasing subtracts the reference angle
from the current angle at every processed part. -/
theorem debiasAll_mem (parts : List ℕ) :
    parts.Nodup → ∀ (pose firstSkel : ℕ → ℚ) (p : ℕ), p ∈ parts →
      debiasAll parts pose firstSkel p = pose p - firstSkel p := by
  induction parts with
  | nil => intro _ pose firstSkel p hp; cases hp
  | cons i rest ih =>
      intro hnd pose firstSkel p hp
      obtain ⟨hir, hrest⟩ := List.nodup_cons.mp hnd
      show debiasAll rest (unbiasDict i pose firstSkel) firstSkel p = pose p - firstSkel p
      rcases List.mem_cons.mp hp with hpi | hpr
      · subst hpi
        rw [debiasAll_not_mem rest (unbiasDict p pose firstSkel) firstSkel p hir]
        simp [unbiasDict, Function.update_same]
      · have hpi : p ≠ i := fun h => hir (h ▸ hpr)
        rw [ih hrest (unbiasDict i pose firstSkel) firstSkel p hpr]
        simp [unbiasDict, Function.update_noteq hpi]

/-- C9: the reference pose is captured at the first successfully processed
frame and never mutated by later frames, and debiasing vanishes at the
reference: when the current (relativized) pose equals the stored reference
pose, the debiased angle set is zero at every used body part — in
particular on the first processed frame itself, where the reference is the
current pose. -/
theorem C9_reference_pose (parts : List ℕ) (hnd : parts.Nodup)
    (relAngles r : ℕ → ℚ) :
    (skeletonPreprocessing parts relAngles (some r)).2 = some r ∧
    (relAngles = r → ∀ p ∈ parts, (skeletonPreprocessing parts relAngles (some r)).1 p = 0) ∧
    (∀ p ∈ parts, (skeletonPreprocessing parts relAngles none).1 p = 0) := by
  refine ⟨rfl, ?_, ?_⟩
  · intro h p hp
    subst h
    show debiasAll parts relAngles ((some relAngles).getD relAngles) p = 0
    rw [Option.getD_some, debiasAll_mem parts hnd relAngles relAngles p hp, sub_self]
  · intro p hp
    show debiasAll parts relAngles ((none : Option (ℕ → ℚ)).getD relAngles) p = 0
    rw [Option.getD_none, debiasAll_mem parts hnd relAngles relAngles p hp, sub_self]

/-- Witness for C9 at a concrete input: two body parts, both carrying the
angle 5 in the current pose and in the reference pose. -/
theorem C9_reference_pose_witness :
    (skeletonPreprocessing [0, 1] (fun _ => (5 : ℚ)) (some (fun _ => 5))).2 =
      some (fun _ => 5) ∧
    (skeletonPreprocessing [0, 1] (fun _ => (5 : ℚ)) (some (fun _ => 5))).1 0 = 0 ∧
    (skeletonPreprocessing [0, 1] (fun _ => (5 : ℚ)) none).1 1 = 0 :=
  ⟨(C9_reference_pose [0, 1] (by decide) (fun _ => 5) (fun _ => 5)).1,
   (C9_reference_pose [0, 1] (by decide) (fun _ => 5) (fun _ => 5)).2.1 rfl 0 (by simp),
   (C9_reference_pose [0, 1] (by decide) (fun _ => 5) (fun _ => 5)).2.2 1 (by simp)⟩

/-- C10: for every real-valued quaternion input, normalized or not,
`quaternion_to_euler` clamps the arcsin argument `t2` to `[-1, 1]` before
taking arcsin, so the arcsin is applied within its domain and the returned
pitch lies in `[-pi/2, pi/2]`. -/
theorem C10_pitch_in_range (x y z w : ℚ) :
    -1 ≤ clampT2 (t2val x y z w) ∧ clampT2 (t2val x y z w) ≤ 1 ∧
    -(Real.pi / 2) ≤ Real.arcsin ((clampT2 (t2val x y z w) : ℚ) : ℝ) ∧
    Real.arcsin ((clampT2 (t2val x y z w) : ℚ) : ℝ) ≤ Real.pi / 2 := by
  refine ⟨?_, ?_, Real.neg_pi_div_two_le_arcsin _, Real.arcsin_le_pi_div_two _⟩
  · unfold clampT2
    split_ifs <;> linarith
  · unfold clampT2
    split_ifs <;> linarith

end HRIComm
